import Mathlib

/-!
Shallow embedding of `src/posts/transform/transform.py` (durraniu/ngsim).

The script is a linear pandas/polars pipeline over one trajectory table:
  1. clean names (modelled as the identity: field names are already clean),
  2. derive `actual_time` from `global_time` (milliseconds since epoch,
     divided by 1000 to seconds, UTC timestamp, tz-converted to Pacific),
  3. sort by `(vehicle_id, frame_id)`,
  4. per-vehicle `time = i / 10.0` via groupby-apply,
  5. left self-merge on `(frame_id, preceding) = (frame_id, vehicle_id)`
     attaching `local_x, local_y, v_length, v_width, v_class, v_vel, v_acc`
     of the preceding row with suffix `_preceding`, drop
     `vehicle_id_preceding`, rename six of the suffixed columns to
     `preceding_*` names (NOT `local_x_preceding`),
  6. drop ten unused columns,
  7. multiply twelve columns by 0.3048 and round to 2 decimals,
  8. cast five identifier columns to strings (categoricals).

Numeric columns are modelled as rationals; rounding to two decimals is
`roundTo2`.  A pandas timestamp is modelled as its instant (epoch seconds,
a rational) together with its display zone; `tz_convert` keeps the instant
and changes the zone.  Nullable (joined) columns are `Option`-valued.
The column-name bookkeeping of the pandas/polars steps is embedded
separately as a schema pipeline over `List String`, with the fail-fast
behaviour of polars `rename` / `drop` / `with_columns` on a missing
column modelled as `Except SchemaError`.
-/

/-- A timezone-aware timestamp: the instant as fractional seconds since the
Unix epoch, plus the display zone.  `tz_convert` changes only the zone. -/
structure Timestamp where
  epochSeconds : ℚ
  zone : String
deriving DecidableEq

/-- One row of the input table, after `clean_names` (NGSIM I-80 schema). -/
structure Row where
  vehicle_id : Nat
  frame_id : Nat
  total_frames : Nat
  global_time : Int
  local_x : ℚ
  local_y : ℚ
  global_x : ℚ
  global_y : ℚ
  v_length : ℚ
  v_width : ℚ
  v_class : Nat
  v_vel : ℚ
  v_acc : ℚ
  lane_id : Nat
  o_zone : Nat
  d_zone : Nat
  int_id : Nat
  section_id : Nat
  direction : Nat
  movement : Nat
  preceding : Nat
  following : Nat
  space_headway : ℚ
deriving DecidableEq

/-- Row after the `actual_time` assignment. -/
structure ARow extends Row where
  actual_time : Timestamp
deriving DecidableEq

/-- Row after the per-vehicle `time` column is assigned. -/
structure TRow extends ARow where
  time : ℚ
deriving DecidableEq

/-- Row after the preceding-vehicle left merge, the drop of
`vehicle_id_preceding` and the rename of the six suffixed columns to
their `preceding_*` names.  `local_x_preceding` keeps its merge-suffix
name because the rename step does not mention it. -/
structure JRow extends TRow where
  local_x_preceding : Option ℚ
  preceding_local_y : Option ℚ
  preceding_v_length : Option ℚ
  preceding_v_width : Option ℚ
  preceding_v_class : Option Nat
  preceding_v_vel : Option ℚ
  preceding_v_acc : Option ℚ
deriving DecidableEq

/-- Row after the ten unused columns are dropped. -/
structure PRow where
  vehicle_id : Nat
  frame_id : Nat
  global_time : Int
  local_x : ℚ
  local_y : ℚ
  v_length : ℚ
  v_width : ℚ
  v_class : Nat
  v_vel : ℚ
  v_acc : ℚ
  lane_id : Nat
  preceding : Nat
  space_headway : ℚ
  actual_time : Timestamp
  time : ℚ
  local_x_preceding : Option ℚ
  preceding_local_y : Option ℚ
  preceding_v_length : Option ℚ
  preceding_v_width : Option ℚ
  preceding_v_class : Option Nat
  preceding_v_vel : Option ℚ
  preceding_v_acc : Option ℚ
deriving DecidableEq

/-- Row after the categorical cast: the five identifier columns become
strings (the categorical codes compare by their string form). -/
structure CRow where
  vehicle_id : String
  frame_id : Nat
  global_time : Int
  local_x : ℚ
  local_y : ℚ
  v_length : ℚ
  v_width : ℚ
  v_class : String
  v_vel : ℚ
  v_acc : ℚ
  lane_id : String
  preceding : String
  space_headway : ℚ
  actual_time : Timestamp
  time : ℚ
  local_x_preceding : Option ℚ
  preceding_local_y : Option ℚ
  preceding_v_length : Option ℚ
  preceding_v_width : Option ℚ
  preceding_v_class : Option String
  preceding_v_vel : Option ℚ
  preceding_v_acc : Option ℚ
deriving DecidableEq

/-- Rounding a rational to the nearest integer (halves up), computably:
for `x = n / d` with `d > 0`, the result is `⌊(2n + d) / (2d)⌋` via floor
division.  `ratRound_eq_round` below shows this agrees with Mathlib's
`round`. -/
def ratRound (x : ℚ) : ℤ := Int.fdiv (2 * x.num + (x.den : ℤ)) (2 * (x.den : ℤ))

/-- Rounding to two decimal places, as in `.round(2)`. -/
def roundTo2 (x : ℚ) : ℚ := (ratRound (100 * x) : ℚ) / 100

/-- The feet-to-meters factor 0.3048. -/
def ftToM : ℚ := 3048 / 10000

/-- The per-value unit conversion applied by the metric step. -/
def convFt (x : ℚ) : ℚ := roundTo2 (x * ftToM)

/-- pd.to_datetime(global_time / 1000, unit = s, origin = epoch, utc = True):
milliseconds since the epoch become fractional seconds, displayed in UTC. -/
def toDatetimeUTC (gt : Int) : Timestamp :=
  { epochSeconds := (gt : ℚ) / 1000, zone := "UTC" }

/-- Series.dt.tz_convert: keeps the instant, changes the display zone. -/
def tzConvert (ts : Timestamp) (z : String) : Timestamp :=
  { ts with zone := z }

/-- The `actual_time` assignment of the Normalizer step. -/
def addActualTime (r : Row) : ARow :=
  { toRow := r, actual_time := tzConvert (toDatetimeUTC r.global_time) "America/Los_Angeles" }

/-- Comparison used by `sort_values(by = [vehicle_id, frame_id])`. -/
def rowLe (a b : ARow) : Prop :=
  a.vehicle_id < b.vehicle_id ∨
    (a.vehicle_id = b.vehicle_id ∧ a.frame_id ≤ b.frame_id)

instance : DecidableRel rowLe := fun a b => by unfold rowLe; infer_instance

instance : IsTotal ARow rowLe :=
  ⟨by intro a b; unfold rowLe; omega⟩

instance : IsTrans ARow rowLe :=
  ⟨by intro a b c; unfold rowLe; omega⟩

/-- Sorting the whole table by `(vehicle_id, frame_id)` ascending. -/
def sortTable (l : List ARow) : List ARow := l.insertionSort rowLe

/-- Walks the (already sorted) table assigning `time = i / 10.0` where `i`
counts the earlier rows of the same vehicle, exactly what
`groupby(vehicle_id).apply(calculate_time_elapsed)` produces on a table
sorted by `(vehicle_id, frame_id)`. -/
def calculate_time_elapsed : List Nat → List ARow → List TRow
  | _, [] => []
  | seen, r :: rest =>
      { toARow := r, time := (seen.count r.vehicle_id : ℚ) / 10 } ::
        calculate_time_elapsed (r.vehicle_id :: seen) rest

/-- The per-vehicle time indexer applied to the whole table. -/
def assignTime (l : List ARow) : List TRow := calculate_time_elapsed [] l

/-- A join output row for a left row with a matching preceding row. -/
def mkMatched (r s : TRow) : JRow :=
  { toTRow := r
    local_x_preceding := some s.local_x
    preceding_local_y := some s.local_y
    preceding_v_length := some s.v_length
    preceding_v_width := some s.v_width
    preceding_v_class := some s.v_class
    preceding_v_vel := some s.v_vel
    preceding_v_acc := some s.v_acc }

/-- A join output row for a left row with no matching preceding row. -/
def mkUnmatched (r : TRow) : JRow :=
  { toTRow := r
    local_x_preceding := none
    preceding_local_y := none
    preceding_v_length := none
    preceding_v_width := none
    preceding_v_class := none
    preceding_v_vel := none
    preceding_v_acc := none }

/-- The pandas left self-merge on `(frame_id, preceding)` against
`(frame_id, vehicle_id)`: every left row is kept; each matching right row
fans it out, and with no match the preceding fields are null.  The
subsequent drop of `vehicle_id_preceding` and the rename of the six other
suffixed columns are realised by the field names of `JRow`. -/
def joinPreceding (l : List TRow) : List JRow :=
  l.flatMap fun r =>
    let ms := l.filter fun s => s.frame_id == r.frame_id && s.vehicle_id == r.preceding
    if ms.isEmpty then [mkUnmatched r] else ms.map (mkMatched r)

/-- The drop of the ten unused columns, as a row projection. -/
def dropUnused (r : JRow) : PRow :=
  { vehicle_id := r.vehicle_id
    frame_id := r.frame_id
    global_time := r.global_time
    local_x := r.local_x
    local_y := r.local_y
    v_length := r.v_length
    v_width := r.v_width
    v_class := r.v_class
    v_vel := r.v_vel
    v_acc := r.v_acc
    lane_id := r.lane_id
    preceding := r.preceding
    space_headway := r.space_headway
    actual_time := r.actual_time
    time := r.time
    local_x_preceding := r.local_x_preceding
    preceding_local_y := r.preceding_local_y
    preceding_v_length := r.preceding_v_length
    preceding_v_width := r.preceding_v_width
    preceding_v_class := r.preceding_v_class
    preceding_v_vel := r.preceding_v_vel
    preceding_v_acc := r.preceding_v_acc }

/-- with_columns((pl.col(cols_to_convert_to_metric) * .3048).round(2)):
the twelve listed columns are converted; nulls pass through `Option.map`;
every other column (in particular `local_x_preceding`) is untouched. -/
def convertMetricRow (r : PRow) : PRow :=
  { r with
    local_x := convFt r.local_x
    local_y := convFt r.local_y
    v_length := convFt r.v_length
    v_width := convFt r.v_width
    v_vel := convFt r.v_vel
    v_acc := convFt r.v_acc
    space_headway := convFt r.space_headway
    preceding_local_y := r.preceding_local_y.map convFt
    preceding_v_length := r.preceding_v_length.map convFt
    preceding_v_width := r.preceding_v_width.map convFt
    preceding_v_vel := r.preceding_v_vel.map convFt
    preceding_v_acc := r.preceding_v_acc.map convFt }

/-- The unit-converter step over the table. -/
def convertMetric (l : List PRow) : List PRow := l.map convertMetricRow

/-- The categorical caster: the five identifier columns are cast to their
string representation. -/
def castCategoricalRow (r : PRow) : CRow :=
  { vehicle_id := toString r.vehicle_id
    frame_id := r.frame_id
    global_time := r.global_time
    local_x := r.local_x
    local_y := r.local_y
    v_length := r.v_length
    v_width := r.v_width
    v_class := toString r.v_class
    v_vel := r.v_vel
    v_acc := r.v_acc
    lane_id := toString r.lane_id
    preceding := toString r.preceding
    space_headway := r.space_headway
    actual_time := r.actual_time
    time := r.time
    local_x_preceding := r.local_x_preceding
    preceding_local_y := r.preceding_local_y
    preceding_v_length := r.preceding_v_length
    preceding_v_width := r.preceding_v_width
    preceding_v_class := r.preceding_v_class.map toString
    preceding_v_vel := r.preceding_v_vel
    preceding_v_acc := r.preceding_v_acc }

/-- The whole value-level pipeline, steps 2 to 8 in script order. -/
def pipeline (l : List Row) : List CRow :=
  ((convertMetric ((joinPreceding (assignTime (sortTable (l.map addActualTime)))).map
    dropUnused)).map castCategoricalRow)

/-! ### Schema-level model

Column-name bookkeeping of the same pipeline.  polars `rename`, `drop` and
`with_columns(pl.col ...)`, and the pandas `.loc` selection and `.drop`,
all fail fast when a named column is absent; this is modelled with
`Except SchemaError`. -/

/-- Error raised when a step names a column absent from the schema. -/
inductive SchemaError where
  | columnNotFound (c : String)
deriving DecidableEq

/-- Columns selected from the right side of the self-merge. -/
def mergeSelection : List String :=
  ["frame_id", "vehicle_id", "local_x", "local_y", "v_length",
   "v_width", "v_class", "v_vel", "v_acc"]

/-- Suffixed columns the merge appends: the shared key `frame_id` is
coalesced, every other selected column collides with the left table
(a self-merge) and receives the `_preceding` suffix. -/
def suffixedCols : List String :=
  ["vehicle_id_preceding", "local_x_preceding", "local_y_preceding",
   "v_length_preceding", "v_width_preceding", "v_class_preceding",
   "v_vel_preceding", "v_acc_preceding"]

/-- Pandas column assignment: adds the column when absent. -/
def addCol (s : List String) (c : String) : List String :=
  if c ∈ s then s else s ++ [c]

/-- Drop a list of columns; fails when one is absent. -/
def dropColsE (cols : List String) (s : List String) : Except SchemaError (List String) :=
  match cols.find? (fun c => !s.contains c) with
  | some c => .error (.columnNotFound c)
  | none => .ok (s.filter fun n => !cols.contains n)

/-- Schema effect of the self-merge plus the left key requirements. -/
def mergeSchemaE (s : List String) : Except SchemaError (List String) :=
  match (mergeSelection ++ ["preceding"]).find? (fun c => !s.contains c) with
  | some c => .error (.columnNotFound c)
  | none => .ok (s ++ suffixedCols)

/-- The six rename pairs of the polars `rename` call. -/
def renamePairs : List (String × String) :=
  [("local_y_preceding", "preceding_local_y"),
   ("v_length_preceding", "preceding_v_length"),
   ("v_width_preceding", "preceding_v_width"),
   ("v_class_preceding", "preceding_v_class"),
   ("v_vel_preceding", "preceding_v_vel"),
   ("v_acc_preceding", "preceding_v_acc")]

/-- The source names of the rename call. -/
def renameSrcCols : List String := renamePairs.map Prod.fst

/-- The target names of the rename call. -/
def renameTgtCols : List String := renamePairs.map Prod.snd

/-- Renaming applied to one column name. -/
def renameFn (n : String) : String :=
  ((renamePairs.find? fun p => p.1 == n).map Prod.snd).getD n

/-- polars `rename`: fails when a source name is absent, otherwise maps
every name through the rename table. -/
def renameE (s : List String) : Except SchemaError (List String) :=
  match renameSrcCols.find? (fun c => !s.contains c) with
  | some c => .error (.columnNotFound c)
  | none => .ok (s.map renameFn)

/-- The ten columns removed by the pruning step. -/
def droppedTen : List String :=
  ["total_frames", "global_x", "global_y", "following", "o_zone",
   "d_zone", "int_id", "section_id", "direction", "movement"]

/-- polars `with_columns(pl.col cols ...)` over existing columns: the
schema is unchanged, but a missing column is an error. -/
def withColumnsE (cols : List String) (s : List String) : Except SchemaError (List String) :=
  match cols.find? (fun c => !s.contains c) with
  | some c => .error (.columnNotFound c)
  | none => .ok s

/-- The twelve columns of the metric conversion, as in the script. -/
def cols_to_convert_to_metric : List String :=
  ["local_x", "local_y", "v_length", "v_width", "v_vel", "v_acc",
   "space_headway", "preceding_local_y", "preceding_v_length",
   "preceding_v_width", "preceding_v_vel", "preceding_v_acc"]

/-- The five columns of the categorical cast, as in the script. -/
def cols_to_convert_to_categorical : List String :=
  ["vehicle_id", "v_class", "lane_id", "preceding", "preceding_v_class"]

/-- The column pruner/renamer: the polars `rename` followed by the drop of
the ten unused columns. -/
def pruneRenameE (s : List String) : Except SchemaError (List String) :=
  renameE s >>= dropColsE droppedTen

/-- Schema trace of the whole pipeline from the cleaned input schema to
the final table. -/
def schemaPipeline (s : List String) : Except SchemaError (List String) :=
  mergeSchemaE (addCol (addCol s "actual_time") "time") >>=
    dropColsE ["vehicle_id_preceding"] >>= renameE >>=
    dropColsE droppedTen >>= withColumnsE cols_to_convert_to_metric >>=
    withColumnsE cols_to_convert_to_categorical

/-- The cleaned column names of the NGSIM I-80 source file. -/
def stdInputSchema : List String :=
  ["vehicle_id", "frame_id", "total_frames", "global_time", "local_x",
   "local_y", "global_x", "global_y", "v_length", "v_width", "v_class",
   "v_vel", "v_acc", "lane_id", "o_zone", "d_zone", "int_id",
   "section_id", "direction", "movement", "preceding", "following",
   "space_headway"]

/-- The schema reaching the pruner/renamer on the standard input. -/
def stdPostJoinSchema : List String :=
  stdInputSchema ++ ["actual_time", "time", "local_x_preceding",
    "local_y_preceding", "v_length_preceding", "v_width_preceding",
    "v_class_preceding", "v_vel_preceding", "v_acc_preceding"]

/-- The final column set of the pipeline on the standard input. -/
def stdFinalSchema : List String :=
  ["vehicle_id", "frame_id", "global_time", "local_x", "local_y",
   "v_length", "v_width", "v_class", "v_vel", "v_acc", "lane_id",
   "preceding", "space_headway", "actual_time", "time",
   "local_x_preceding", "preceding_local_y", "preceding_v_length",
   "preceding_v_width", "preceding_v_class", "preceding_v_vel",
   "preceding_v_acc"]

/-! ### Concrete rows used to instantiate the theorems -/

/-- A concrete input row builder for tests of the pipeline. -/
def mkExRow (vid frame : Nat) (x vel : ℚ) (prec : Nat) : Row :=
  { vehicle_id := vid, frame_id := frame, total_frames := 3,
    global_time := 1113433135300, local_x := x, local_y := 2 * x,
    global_x := 0, global_y := 0, v_length := 15, v_width := 6,
    v_class := 2, v_vel := vel, v_acc := 1, lane_id := 3, o_zone := 0,
    d_zone := 0, int_id := 0, section_id := 0, direction := 0,
    movement := 0, preceding := prec, following := 0,
    space_headway := 40 }

/-- The end-to-end scenario of the spec: vehicles 1 and 2 at frames
0, 1, 2, vehicle 2 preceded by vehicle 1 at every frame, listed out of
order so that the sort step matters. -/
def exInput : List Row :=
  [mkExRow 2 2 52 60 1, mkExRow 1 0 100 10 0, mkExRow 2 0 50 40 1,
   mkExRow 1 2 120 30 0, mkExRow 1 1 110 20 0, mkExRow 2 1 51 50 1]

/-- A concrete time-indexed row for vehicle 1 at frame 0. -/
def exT1 : TRow := { toARow := addActualTime (mkExRow 1 0 100 10 0), time := 0 }

/-- A concrete time-indexed row for vehicle 2 at frame 0, preceded by
vehicle 1. -/
def exT2 : TRow := { toARow := addActualTime (mkExRow 2 0 50 40 1), time := 0 }

/-- A concrete post-prune row with null preceding fields. -/
def exP0 : PRow :=
  { vehicle_id := 1, frame_id := 0, global_time := 1113433135300,
    local_x := 100, local_y := 200, v_length := 15, v_width := 6,
    v_class := 2, v_vel := 10, v_acc := 1, lane_id := 3, preceding := 0,
    space_headway := 40,
    actual_time := { epochSeconds := 11134331353 / 10, zone := "America/Los_Angeles" },
    time := 0, local_x_preceding := none, preceding_local_y := none,
    preceding_v_length := none, preceding_v_width := none,
    preceding_v_class := none, preceding_v_vel := none,
    preceding_v_acc := none }

/-- A concrete post-prune row with populated preceding fields. -/
def exP1 : PRow :=
  { exP0 with
    vehicle_id := 2
    preceding := 1
    v_vel := 40
    local_x_preceding := some 100
    preceding_local_y := some 200
    preceding_v_length := some 15
    preceding_v_width := some 6
    preceding_v_class := some 2
    preceding_v_vel := some 10
    preceding_v_acc := some 1 }

/-! ### Helper lemmas -/

/-- Sanity: `ratRound` is the standard rounding of Mathlib. -/
theorem ratRound_eq_round (x : ℚ) : ratRound x = round x := by
  have hd0 : (x.den : ℚ) ≠ 0 := Nat.cast_ne_zero.mpr x.den_nz
  have hx : x = (x.num : ℚ) / (x.den : ℚ) := (Rat.num_div_den x).symm
  have key : x + 1 / 2 = ((2 * x.num + (x.den : ℤ) : ℤ) : ℚ) / ((2 * x.den : ℕ) : ℚ) := by
    conv_lhs => rw [hx]
    push_cast
    field_simp
    ring
  rw [round_eq, ratRound, key, Rat.floor_intCast_div_natCast]
  rw [Int.fdiv_eq_ediv _ (by positivity)]
  push_cast
  rfl

/-! ### C8: the actual_time derivation -/

/-- C8: `actual_time` is a pure function of `global_time` alone —
milliseconds to seconds, a UTC instant, then the zone converted to
US Pacific — and the step changes no other field. -/
theorem actual_time_spec (r : Row) :
    (addActualTime r).actual_time =
      { epochSeconds := (r.global_time : ℚ) / 1000, zone := "America/Los_Angeles" } ∧
    (addActualTime r).actual_time =
      tzConvert (toDatetimeUTC r.global_time) "America/Los_Angeles" ∧
    (addActualTime r).toRow = r ∧
    (∀ r' : Row, r.global_time = r'.global_time →
      (addActualTime r).actual_time = (addActualTime r').actual_time) := by
  refine ⟨rfl, rfl, rfl, ?_⟩
  intro r' h
  simp [addActualTime, toDatetimeUTC, tzConvert, h]

/-- C8 witness: two concrete rows differing in every other field but with
equal `global_time` receive equal `actual_time`. -/
theorem actual_time_spec_witness :
    (addActualTime (mkExRow 1 0 100 10 0)).actual_time =
      (addActualTime (mkExRow 2 5 50 40 1)).actual_time :=
  (actual_time_spec (mkExRow 1 0 100 10 0)).2.2.2 (mkExRow 2 5 50 40 1) rfl

/-! ### C3: the unit converter -/

/-- C3: the unit converter sends every value `v` of each of the twelve
listed columns to `round(v * 0.3048, 2)`, and a null value to null. -/
theorem unit_conversion_spec (r : PRow) :
    (convertMetricRow r).local_x = roundTo2 (r.local_x * ftToM) ∧
    (convertMetricRow r).local_y = roundTo2 (r.local_y * ftToM) ∧
    (convertMetricRow r).v_length = roundTo2 (r.v_length * ftToM) ∧
    (convertMetricRow r).v_width = roundTo2 (r.v_width * ftToM) ∧
    (convertMetricRow r).v_vel = roundTo2 (r.v_vel * ftToM) ∧
    (convertMetricRow r).v_acc = roundTo2 (r.v_acc * ftToM) ∧
    (convertMetricRow r).space_headway = roundTo2 (r.space_headway * ftToM) ∧
    (convertMetricRow r).preceding_local_y
      = r.preceding_local_y.map (fun v => roundTo2 (v * ftToM)) ∧
    (convertMetricRow r).preceding_v_length
      = r.preceding_v_length.map (fun v => roundTo2 (v * ftToM)) ∧
    (convertMetricRow r).preceding_v_width
      = r.preceding_v_width.map (fun v => roundTo2 (v * ftToM)) ∧
    (convertMetricRow r).preceding_v_vel
      = r.preceding_v_vel.map (fun v => roundTo2 (v * ftToM)) ∧
    (convertMetricRow r).preceding_v_acc
      = r.preceding_v_acc.map (fun v => roundTo2 (v * ftToM)) ∧
    (r.preceding_v_vel = none → (convertMetricRow r).preceding_v_vel = none) ∧
    (∀ v, r.preceding_v_vel = some v →
      (convertMetricRow r).preceding_v_vel = some (roundTo2 (v * ftToM))) := by
  refine ⟨rfl, rfl, rfl, rfl, rfl, rfl, rfl, rfl, rfl, rfl, rfl, rfl, ?_, ?_⟩
  · intro h; simp [convertMetricRow, h]
  · intro v h; simp [convertMetricRow, h, convFt]

/-- C3 witness: at the concrete null row the null clause fires. -/
theorem unit_conversion_spec_witness :
    (convertMetricRow exP0).preceding_v_vel = none :=
  (unit_conversion_spec exP0).2.2.2.2.2.2.2.2.2.2.2.2.1 rfl

/-! ### C10: the converter touches nothing else -/

/-- C10: the unit converter leaves every column outside its fixed list
unchanged — identifiers, times and, in particular, the joined
`local_x_preceding` column, which therefore keeps its imperial value
through the categorical cast into the final table. -/
theorem unit_conversion_frame (r : PRow) :
    (convertMetricRow r).vehicle_id = r.vehicle_id ∧
    (convertMetricRow r).frame_id = r.frame_id ∧
    (convertMetricRow r).global_time = r.global_time ∧
    (convertMetricRow r).v_class = r.v_class ∧
    (convertMetricRow r).lane_id = r.lane_id ∧
    (convertMetricRow r).preceding = r.preceding ∧
    (convertMetricRow r).actual_time = r.actual_time ∧
    (convertMetricRow r).time = r.time ∧
    (convertMetricRow r).preceding_v_class = r.preceding_v_class ∧
    (convertMetricRow r).local_x_preceding = r.local_x_preceding ∧
    (castCategoricalRow (convertMetricRow r)).local_x_preceding = r.local_x_preceding :=
  ⟨rfl, rfl, rfl, rfl, rfl, rfl, rfl, rfl, rfl, rfl, rfl⟩

/-! ### C6 and C5: concrete evaluations need the Batteries rational
arithmetic unfolded, so its operations are made semireducible locally. -/

section

attribute [local semireducible] Rat.mul Rat.inv Rat.add Rat.sub

set_option maxRecDepth 100000

/-- C6: applying the unit converter twice yields
`round(round(v * 0.3048, 2) * 0.3048, 2)` on every listed column, and the
step is not idempotent: on a concrete row the second application changes
the row again. -/
theorem unit_conversion_not_idempotent :
    (∀ r : PRow,
      (convertMetricRow (convertMetricRow r)).local_x
        = roundTo2 (roundTo2 (r.local_x * ftToM) * ftToM) ∧
      (convertMetricRow (convertMetricRow r)).local_y
        = roundTo2 (roundTo2 (r.local_y * ftToM) * ftToM) ∧
      (convertMetricRow (convertMetricRow r)).v_length
        = roundTo2 (roundTo2 (r.v_length * ftToM) * ftToM) ∧
      (convertMetricRow (convertMetricRow r)).v_width
        = roundTo2 (roundTo2 (r.v_width * ftToM) * ftToM) ∧
      (convertMetricRow (convertMetricRow r)).v_vel
        = roundTo2 (roundTo2 (r.v_vel * ftToM) * ftToM) ∧
      (convertMetricRow (convertMetricRow r)).v_acc
        = roundTo2 (roundTo2 (r.v_acc * ftToM) * ftToM) ∧
      (convertMetricRow (convertMetricRow r)).space_headway
        = roundTo2 (roundTo2 (r.space_headway * ftToM) * ftToM) ∧
      (convertMetricRow (convertMetricRow r)).preceding_local_y
        = r.preceding_local_y.map (fun v => roundTo2 (roundTo2 (v * ftToM) * ftToM)) ∧
      (convertMetricRow (convertMetricRow r)).preceding_v_length
        = r.preceding_v_length.map (fun v => roundTo2 (roundTo2 (v * ftToM) * ftToM)) ∧
      (convertMetricRow (convertMetricRow r)).preceding_v_width
        = r.preceding_v_width.map (fun v => roundTo2 (roundTo2 (v * ftToM) * ftToM)) ∧
      (convertMetricRow (convertMetricRow r)).preceding_v_vel
        = r.preceding_v_vel.map (fun v => roundTo2 (roundTo2 (v * ftToM) * ftToM)) ∧
      (convertMetricRow (convertMetricRow r)).preceding_v_acc
        = r.preceding_v_acc.map (fun v => roundTo2 (roundTo2 (v * ftToM) * ftToM))) ∧
    convertMetricRow (convertMetricRow exP1) ≠ convertMetricRow exP1 := by
  constructor
  · intro r
    refine ⟨rfl, rfl, rfl, rfl, rfl, rfl, rfl, ?_, ?_, ?_, ?_, ?_⟩ <;>
      simp [convertMetricRow, Option.map_map] <;> rfl
  · decide

/-- C5: the end-to-end scenario — two vehicles at frames 0, 1, 2 with
vehicle 2 preceded by vehicle 1 — yields six rows, vehicle 2 carries
vehicle 1's (converted) velocity at the matching frame, and both
vehicles' time columns read 0.0, 0.1, 0.2. -/
theorem end_to_end_spec :
    (pipeline exInput).length = 6 ∧
    ((pipeline exInput).filter fun r => r.vehicle_id == "2").map (fun r => r.preceding_v_vel)
      = ((pipeline exInput).filter fun r => r.vehicle_id == "1").map (fun r => some r.v_vel) ∧
    ((pipeline exInput).filter fun r => r.vehicle_id == "2").map (fun r => r.preceding_v_vel)
      = [some (convFt 10), some (convFt 20), some (convFt 30)] ∧
    ((pipeline exInput).filter fun r => r.vehicle_id == "1").map (fun r => r.time)
      = [0, 1 / 10, 2 / 10] ∧
    ((pipeline exInput).filter fun r => r.vehicle_id == "2").map (fun r => r.time)
      = [0, 1 / 10, 2 / 10] := by
  decide

end

/-! ### C2: the preceding-vehicle left join -/

/-- C2: the preceding join is a left outer equality join on
`(frame_id, preceding)` against `(frame_id, vehicle_id)`: every matching
right row yields an output row whose preceding fields copy that row
(in particular `preceding_v_vel` is its `v_vel`), and a left row with no
match is kept with null preceding fields. -/
theorem join_preceding_spec (l : List TRow) (r : TRow) (hr : r ∈ l) :
    (∀ s, s ∈ l → s.frame_id = r.frame_id → s.vehicle_id = r.preceding →
      mkMatched r s ∈ joinPreceding l ∧
      (mkMatched r s).preceding_v_vel = some s.v_vel ∧
      (mkMatched r s).toTRow = r) ∧
    ((∀ s, s ∈ l → ¬(s.frame_id = r.frame_id ∧ s.vehicle_id = r.preceding)) →
      mkUnmatched r ∈ joinPreceding l ∧
      (mkUnmatched r).preceding_v_vel = none ∧
      (mkUnmatched r).toTRow = r) := by
  constructor
  · intro s hs hf hv
    refine ⟨?_, rfl, rfl⟩
    apply List.mem_flatMap.mpr
    refine ⟨r, hr, ?_⟩
    have hsm : s ∈ l.filter fun s' =>
        s'.frame_id == r.frame_id && s'.vehicle_id == r.preceding :=
      List.mem_filter.mpr ⟨hs, by simp [hf, hv]⟩
    have hne : (l.filter fun s' =>
        s'.frame_id == r.frame_id && s'.vehicle_id == r.preceding).isEmpty = false := by
      rcases hq : l.filter fun s' =>
          s'.frame_id == r.frame_id && s'.vehicle_id == r.preceding with _ | ⟨a, as⟩
      · rw [hq] at hsm; cases hsm
      · rw [hq]; rfl
    show mkMatched r s ∈
      if (l.filter fun s' =>
          s'.frame_id == r.frame_id && s'.vehicle_id == r.preceding).isEmpty
      then [mkUnmatched r]
      else (l.filter fun s' =>
          s'.frame_id == r.frame_id && s'.vehicle_id == r.preceding).map (mkMatched r)
    rw [hne]
    simp only [Bool.false_eq_true, if_false]
    exact List.mem_map.mpr ⟨s, hsm, rfl⟩
  · intro h
    refine ⟨?_, rfl, rfl⟩
    apply List.mem_flatMap.mpr
    refine ⟨r, hr, ?_⟩
    have hnil : (l.filter fun s' =>
        s'.frame_id == r.frame_id && s'.vehicle_id == r.preceding) = [] := by
      apply List.filter_eq_nil_iff.mpr
      intro a ha
      have := h a ha
      simpa using this
    show mkUnmatched r ∈
      if (l.filter fun s' =>
          s'.frame_id == r.frame_id && s'.vehicle_id == r.preceding).isEmpty
      then [mkUnmatched r]
      else (l.filter fun s' =>
          s'.frame_id == r.frame_id && s'.vehicle_id == r.preceding).map (mkMatched r)
    rw [hnil]
    simp

/-- C2 witness: at a concrete two-row table, vehicle 2's row joined with
vehicle 1's row at frame 0 appears in the output. -/
theorem join_preceding_spec_witness :
    mkMatched exT2 exT1 ∈ joinPreceding [exT1, exT2] :=
  ((join_preceding_spec [exT1, exT2] exT2 (by simp)).1 exT1 (by simp) rfl rfl).1

/-! ### C1: the per-vehicle time indexer -/

/-- The time indexer only adds the `time` column: projecting it away
returns the input rows in order. -/
theorem calc_map_toARow (seen : List Nat) (l : List ARow) :
    (calculate_time_elapsed seen l).map (fun r => r.toARow) = l := by
  induction l generalizing seen with
  | nil => rfl
  | cons r rest ih => simp [calculate_time_elapsed, ih]

/-- Within one vehicle group the assigned times continue the count of
that vehicle's rows already seen, in steps of one tenth. -/
theorem calc_filter_map_time (v : Nat) (l : List ARow) :
    ∀ seen : List Nat,
      (((calculate_time_elapsed seen l).filter fun r => r.vehicle_id == v).map fun r => r.time)
        = (List.range' (seen.count v) ((l.filter fun r => r.vehicle_id == v).length)).map
            (fun i : ℕ => (i : ℚ) / 10) := by
  induction l with
  | nil => intro seen; rfl
  | cons r rest ih =>
    intro seen
    by_cases h : r.vehicle_id = v
    · have hbeq : (r.vehicle_id == v) = true := beq_iff_eq.mpr h
      simp only [calculate_time_elapsed, List.filter_cons, hbeq, if_true,
        List.map_cons, List.length_cons, List.range'_succ]
      rw [h]
      have := ih (v :: seen)
      rw [List.count_cons_self] at this
      rw [this]
    · have hbeq : (r.vehicle_id == v) = false := by simpa using h
      simp only [calculate_time_elapsed, List.filter_cons, hbeq, if_false]
      have := ih (r.vehicle_id :: seen)
      rw [List.count_cons, hbeq] at this
      simpa using this

/-- C1: in the table produced by sorting on `(vehicle_id, frame_id)` and
then indexing time per vehicle group, every vehicle's rows appear with
`frame_id` ascending and their `time` values are exactly
`0.0, 0.1, 0.2, ...` with no gaps — the i-th row of the group gets
`i / 10`, and a singleton group gets `[0.0]` — whatever the actual
`frame_id` spacing. -/
theorem per_vehicle_time_spec (l : List ARow) (v : Nat) :
    List.Pairwise (fun a b : TRow => a.frame_id ≤ b.frame_id)
      ((assignTime (sortTable l)).filter fun r => r.vehicle_id == v) ∧
    (((assignTime (sortTable l)).filter fun r => r.vehicle_id == v).map fun r => r.time)
      = (List.range
          ((assignTime (sortTable l)).filter fun r => r.vehicle_id == v).length).map
          (fun i : ℕ => (i : ℚ) / 10) := by
  have hmap : (((assignTime (sortTable l)).filter fun r => r.vehicle_id == v).map
        fun r => r.time)
      = (List.range' 0 (((sortTable l).filter fun r => r.vehicle_id == v).length)).map
          (fun i : ℕ => (i : ℚ) / 10) := by
    simpa using calc_filter_map_time v (sortTable l) []
  constructor
  · have hs : List.Pairwise rowLe (sortTable l) := List.sorted_insertionSort rowLe l
    have hout : (assignTime (sortTable l)).map (fun r => r.toARow) = sortTable l :=
      calc_map_toARow [] (sortTable l)
    have hp : List.Pairwise (fun a b : TRow => rowLe a.toARow b.toARow)
        (assignTime (sortTable l)) := by
      rw [← hout] at hs
      exact List.pairwise_map.mp hs
    refine List.Pairwise.imp_of_mem ?_ (hp.filter _)
    intro a b ha hb hab
    have hav : a.vehicle_id = v := by simpa using (List.mem_filter.mp ha).2
    have hbv : b.vehicle_id = v := by simpa using (List.mem_filter.mp hb).2
    unfold rowLe at hab
    omega
  · have hlen : ((assignTime (sortTable l)).filter fun r => r.vehicle_id == v).length
        = (((sortTable l)).filter fun r => r.vehicle_id == v).length := by
      have := congrArg List.length hmap
      simpa using this
    rw [hlen, List.range_eq_range']
    exact hmap

/-! ### Schema lemmas for C4, C7, C9 -/

/-- Peeling one `Except` bind that succeeded. -/
theorem except_bind_ok {α β : Type} {e : Except SchemaError α}
    {f : α → Except SchemaError β} {b : β}
    (h : e >>= f = .ok b) : ∃ a, e = .ok a ∧ f a = .ok b := by
  cases e with
  | error err => simp [Bind.bind, Except.bind] at h
  | ok a => exact ⟨a, rfl, by simpa [Bind.bind, Except.bind] using h⟩

/-- A successful merge appends exactly the suffixed columns. -/
theorem mergeSchemaE_ok {s t : List String} (h : mergeSchemaE s = .ok t) :
    t = s ++ suffixedCols := by
  unfold mergeSchemaE at h
  split at h
  · cases h
  · injection h with h; exact h.symm

/-- A successful drop filters out exactly the dropped names, which must
all have been present. -/
theorem dropColsE_ok {cols s t : List String} (h : dropColsE cols s = .ok t) :
    (∀ c ∈ cols, c ∈ s) ∧ t = s.filter fun n => !cols.contains n := by
  unfold dropColsE at h
  split at h
  · cases h
  · next hf =>
    injection h with h
    refine ⟨?_, h.symm⟩
    intro c hc
    have := List.find?_eq_none.mp hf c hc
    simpa using this

/-- A successful rename maps every name through the rename table, and all
source names were present. -/
theorem renameE_ok {s t : List String} (h : renameE s = .ok t) :
    (∀ c ∈ renameSrcCols, c ∈ s) ∧ t = s.map renameFn := by
  unfold renameE at h
  split at h
  · cases h
  · next hf =>
    injection h with h
    refine ⟨?_, h.symm⟩
    intro c hc
    have := List.find?_eq_none.mp hf c hc
    simpa using this

/-- with_columns never changes the schema when it succeeds. -/
theorem withColumnsE_ok {cols s t : List String} (h : withColumnsE cols s = .ok t) :
    t = s := by
  unfold withColumnsE at h
  split at h
  · cases h
  · injection h with h; exact h.symm

/-- Dropping succeeds when every dropped name is present. -/
theorem dropColsE_eq_ok {cols s : List String} (h : ∀ c ∈ cols, c ∈ s) :
    dropColsE cols s = .ok (s.filter fun n => !cols.contains n) := by
  unfold dropColsE
  rw [List.find?_eq_none.mpr]
  intro c hc
  simpa using h c hc

/-- Renaming succeeds when every source name is present. -/
theorem renameE_eq_ok {s : List String} (h : ∀ c ∈ renameSrcCols, c ∈ s) :
    renameE s = .ok (s.map renameFn) := by
  unfold renameE
  rw [List.find?_eq_none.mpr]
  intro c hc
  simpa using h c hc

/-- A surviving column is kept by a successful drop. -/
theorem dropColsE_mem {cols s t : List String} (h : dropColsE cols s = .ok t)
    {c : String} (hmem : c ∈ s) (hnot : c ∉ cols) : c ∈ t := by
  rw [(dropColsE_ok h).2]
  exact List.mem_filter.mpr ⟨hmem, by simpa using hnot⟩

/-- A dropped column is absent from a successful drop's output. -/
theorem dropColsE_not_mem {cols s t : List String} (h : dropColsE cols s = .ok t)
    {c : String} (hc : c ∈ cols) : c ∉ t := by
  rw [(dropColsE_ok h).2]
  intro hmem
  have := (List.mem_filter.mp hmem).2
  simp at this
  exact this hc

/-- Renaming a name either fixes it or lands in the rename targets. -/
theorem renameFn_eq_self_or_tgt (n : String) :
    renameFn n = n ∨ renameFn n ∈ renameTgtCols := by
  unfold renameFn
  cases hf : renamePairs.find? (fun p => p.1 == n) with
  | none => left; rfl
  | some p =>
    right
    exact List.mem_map.mpr ⟨p, List.mem_of_find?_eq_some hf, rfl⟩

/-- For the ten pruned names, membership is unaffected by the rename. -/
theorem mem_map_renameFn_ten {c : String} (hc : c ∈ droppedTen)
    (s : List String) : c ∈ s.map renameFn ↔ c ∈ s := by
  have hfix : renameFn c = c :=
    (by decide : ∀ x ∈ droppedTen, renameFn x = x) c hc
  have hnotTgt : c ∉ renameTgtCols :=
    (by decide : ∀ x ∈ droppedTen, x ∉ renameTgtCols) c hc
  constructor
  · intro h
    obtain ⟨n, hn, hfn⟩ := List.mem_map.mp h
    rcases renameFn_eq_self_or_tgt n with h1 | h1
    · have : n = c := by rw [← hfn, h1]
      exact this ▸ hn
    · exact absurd (hfn ▸ h1) hnotTgt
  · intro h
    exact List.mem_map.mpr ⟨c, h, hfix⟩

/-! ### C7: the ten pruned columns are gone -/

/-- C7: whenever the pipeline succeeds, none of the ten dropped columns
appears in the final column set. -/
theorem dropped_columns_absent (s t : List String)
    (h : schemaPipeline s = .ok t) : ∀ c ∈ droppedTen, c ∉ t := by
  unfold schemaPipeline at h
  obtain ⟨s5, hA, h6⟩ := except_bind_ok h
  obtain ⟨s4, hB, h5⟩ := except_bind_ok hA
  obtain ⟨s3, hC, h4⟩ := except_bind_ok hB
  intro c hc
  rw [withColumnsE_ok h6, withColumnsE_ok h5]
  exact dropColsE_not_mem h4 hc

/-- C7 witness: on the standard input schema the pipeline succeeds and
`total_frames` is gone from the final columns. -/
theorem dropped_columns_absent_witness : "total_frames" ∉ stdFinalSchema :=
  dropped_columns_absent stdInputSchema stdFinalSchema (by rfl)
    "total_frames" (by decide)

/-! ### C4: the fate of local_x_preceding -/

/-- C4 counterexample: on the standard input schema the pipeline succeeds
and `local_x_preceding` IS present in the final column set — it is not
dropped alongside the pruned columns, contrary to the claim. -/
theorem local_x_preceding_dropped_cex :
    (schemaPipeline stdInputSchema).isOk = true ∧
    "local_x_preceding" ∈ (schemaPipeline stdInputSchema).toOption.getD [] := by
  decide

/-- C4 amended: the join creates a `local_x_preceding` column (only
`local_y` is renamed), and the pruning step does NOT remove it: whenever
the pipeline succeeds it is present in the final column set. -/
theorem local_x_preceding_in_final (s t : List String)
    (h : schemaPipeline s = .ok t) : "local_x_preceding" ∈ t := by
  unfold schemaPipeline at h
  obtain ⟨s5, hA, h6⟩ := except_bind_ok h
  obtain ⟨s4, hB, h5⟩ := except_bind_ok hA
  obtain ⟨s3, hC, h4⟩ := except_bind_ok hB
  obtain ⟨s2, hD, h3⟩ := except_bind_ok hC
  obtain ⟨s1, h1, h2⟩ := except_bind_ok hD
  have m1 : "local_x_preceding" ∈ s1 := by
    rw [mergeSchemaE_ok h1]
    exact List.mem_append_right _ (by decide)
  have m2 : "local_x_preceding" ∈ s2 :=
    dropColsE_mem h2 m1 (by decide)
  have m3 : "local_x_preceding" ∈ s3 := by
    rw [(renameE_ok h3).2]
    exact List.mem_map.mpr ⟨"local_x_preceding", m2, by decide⟩
  have m4 : "local_x_preceding" ∈ s4 :=
    dropColsE_mem h4 m3 (by decide)
  rw [withColumnsE_ok h6, withColumnsE_ok h5]
  exact m4

/-- C4 amended witness: concretely, `local_x_preceding` is in the final
schema of the standard input. -/
theorem local_x_preceding_in_final_witness :
    "local_x_preceding" ∈ stdFinalSchema :=
  local_x_preceding_in_final stdInputSchema stdFinalSchema (by rfl)

/-! ### C9: the pruner/renamer fails exactly on missing columns -/

/-- C9: the column pruner/renamer succeeds exactly when every column it
renames and every column it drops is present; otherwise it returns a
schema error and no output. -/
theorem prune_rename_schema_spec (s : List String) :
    (pruneRenameE s).isOk = true ↔
      (∀ c ∈ renameSrcCols, c ∈ s) ∧ (∀ c ∈ droppedTen, c ∈ s) := by
  constructor
  · intro h
    cases hr : renameE s with
    | error e => simp [pruneRenameE, hr, Bind.bind, Except.bind, Except.isOk, Except.toBool] at h
    | ok s2 =>
      have hre := renameE_ok hr
      refine ⟨hre.1, ?_⟩
      rw [pruneRenameE, hr] at h
      simp only [Bind.bind, Except.bind] at h
      cases hd : dropColsE droppedTen s2 with
      | error e => rw [hd] at h; simp [Except.isOk, Except.toBool] at h
      | ok t =>
        intro c hc
        have := (dropColsE_ok hd).1 c hc
        rw [hre.2] at this
        exact (mem_map_renameFn_ten hc s).mp this
  · rintro ⟨h1, h2⟩
    have hr := renameE_eq_ok h1
    have h2' : ∀ c ∈ droppedTen, c ∈ s.map renameFn := fun c hc =>
      (mem_map_renameFn_ten hc s).mpr (h2 c hc)
    have hd := dropColsE_eq_ok h2'
    rw [pruneRenameE, hr]
    simp [Bind.bind, Except.bind, hd, Except.isOk, Except.toBool]

/-- C9 witness: on the schema reaching the pruner/renamer in the standard
run, all required columns are present and the step succeeds. -/
theorem prune_rename_schema_spec_witness :
    (pruneRenameE stdPostJoinSchema).isOk = true :=
  (prune_rename_schema_spec stdPostJoinSchema).mpr (by decide)
